import Mathlib

/-!
Verification development for the LakeSoul asynchronous columnar-batch reader
bridge: the `LakeSoulDataReader` (Batch Reader) and `LakeSoulFragment`
(Fragment Adapter) components declared in
`lakesoul-dataset/lib/include/lakesoul/data_reader.h` and
`lib/include/lakesoul/fragment.h`.

The repository's observed surface is a declaration-only skeleton: the headers
fix the class interfaces, field types and default member initializers
(`batch_size_ = 16`, `thread_num_ = 1`, `finished_ = false`,
`retain_partition_columns_ = false`), but the member-function bodies are not
part of the source tree.  The state types and default values below are
embedded directly from the headers; the operation bodies are modelled from the
specification, as marked on each definition.

The native storage engine is external to this layer; it is represented by a
fake engine double (`FakeEngine`) that fixes the outcome of the engine's
reader-construction call and the finite stream of emissions (batches,
mid-stream error, end-of-stream) produced by successive engine pulls.  An
`EngineLog` counts the engine contacts so that "performs exactly one engine
call" and "without contacting the engine" are provable statements.
-/

deriving instance DecidableEq for Except

namespace LakeSoul

/-- A column of a decoded record batch: a column name together with the value
held in each row (columnar layout). -/
structure Column where
  name : String
  values : List String
  deriving Repr, DecidableEq

/-- A decoded record batch: an ordered sequence of columns. -/
structure Batch where
  cols : List Column
  deriving Repr, DecidableEq

/-- The number of rows of a batch: the length of its first column (every
column of a well-formed batch has the same length). -/
def Batch.numRows (b : Batch) : Nat :=
  match b.cols with
  | [] => 0
  | c :: _ => c.values.length

/-- A schema: an ordered sequence of (column name, column type) pairs,
embedding `std::shared_ptr<arrow::Schema>` contents. -/
abbrev Schema := List (String × String)

/-- The error taxonomy of the bridging layer (spec section 7). -/
inductive Error where
  | EngineInitError (msg : String)
  | ReadError (msg : String)
  | ConfigurationFrozen
  deriving Repr, DecidableEq

/-- One engine emission during streaming: either the next decoded batch or a
mid-stream engine error carrying the engine's diagnostic text. -/
inductive Pull where
  | batch (b : Batch)
  | failure (e : String)
  deriving Repr, DecidableEq

/-- A fake engine double: the outcome of the engine's reader-construction
call, and the finite sequence of emissions successive engine pulls produce.
Once the emissions are exhausted the engine signals end-of-stream. -/
structure FakeEngine where
  initOutcome : Except String Unit
  emissions : List Pull
  deriving Repr, DecidableEq

/-- Instrumentation: counts of the engine contacts made so far.
`initCalls` counts engine reader-construction calls, `pullCalls` counts
engine batch-pull calls. -/
structure EngineLog where
  initCalls : Nat
  pullCalls : Nat
  deriving Repr, DecidableEq

/-- The state of `lakesoul::LakeSoulDataReader`, embedded field by field from
`lakesoul-dataset/lib/include/lakesoul/data_reader.h` (lines 46-55).  The
`reader_` field embeds `std::shared_ptr<CResult<Reader>>`: `none` while the
shared pointer is null (reader not yet created), `some (Except.ok ())` once a
live engine reader handle is held, `some (Except.error e)` once the engine's
construction call returned the error `e` (the `CResult` tagged variant of the
design notes).  Default member initializers are taken from the header. -/
structure LakeSoulDataReader where
  schema_ : Schema
  file_urls_ : List String
  primary_keys_ : List String
  partition_info_ : List (String × String)
  object_store_configs_ : List (String × String)
  batch_size_ : Int
  thread_num_ : Int
  reader_ : Option (Except String Unit)
  finished_ : Bool
  retain_partition_columns_ : Bool
  deriving Repr, DecidableEq

namespace LakeSoulDataReader

/-- The constructor `LakeSoulDataReader(schema, file_urls, primary_keys,
partition_info)` (header lines 21-25): stores the four arguments and leaves
every remaining field at its default member initializer
(`object_store_configs_` empty, `batch_size_ = 16`, `thread_num_ = 1`,
`reader_` null, `finished_ = false`, `retain_partition_columns_ = false`). -/
def construct (schema : Schema) (file_urls : List String)
    (primary_keys : List String)
    (partition_info : List (String × String)) : LakeSoulDataReader :=
  { schema_ := schema
    file_urls_ := file_urls
    primary_keys_ := primary_keys
    partition_info_ := partition_info
    object_store_configs_ := []
    batch_size_ := 16
    thread_num_ := 1
    reader_ := none
    finished_ := false
    retain_partition_columns_ := false }

/-- `GetBatchSize` returns the stored batch size. -/
def GetBatchSize (r : LakeSoulDataReader) : Int := r.batch_size_

/-- `GetThreadNum` returns the stored thread count. -/
def GetThreadNum (r : LakeSoulDataReader) : Int := r.thread_num_

/-- `IsFinished` returns the `finished_` flag. -/
def IsFinished (r : LakeSoulDataReader) : Bool := r.finished_

/-- Modelled from the spec: the body of `LakeSoulDataReader::SetBatchSize` is
not in the source tree.  Spec section 4.1: a validated positive integer,
effective only before the reader is created; mutation after reader creation
is reported as `ConfigurationFrozen` (section 7: must be reported, not
silently ignored) and leaves the state unchanged.  A non-positive argument is
rejected, leaving the stored value unchanged. -/
def SetBatchSize (r : LakeSoulDataReader) (batch_size : Int) :
    LakeSoulDataReader × Except Error Unit :=
  if r.reader_.isSome then (r, .error .ConfigurationFrozen)
  else if 0 < batch_size then ({ r with batch_size_ := batch_size }, .ok ())
  else (r, .ok ())

/-- Modelled from the spec: the body of `LakeSoulDataReader::SetThreadNum` is
not in the source tree.  Same contract as `SetBatchSize` (spec section
4.1). -/
def SetThreadNum (r : LakeSoulDataReader) (thread_num : Int) :
    LakeSoulDataReader × Except Error Unit :=
  if r.reader_.isSome then (r, .error .ConfigurationFrozen)
  else if 0 < thread_num then ({ r with thread_num_ := thread_num }, .ok ())
  else (r, .ok ())

/-- Modelled from the spec: the body of
`LakeSoulDataReader::SetRetainPartitionColumns` is not in the source tree.
The declared signature takes no argument, so the only action available is
enabling the flag; after reader creation the configuration is frozen. -/
def SetRetainPartitionColumns (r : LakeSoulDataReader) :
    LakeSoulDataReader × Except Error Unit :=
  if r.reader_.isSome then (r, .error .ConfigurationFrozen)
  else ({ r with retain_partition_columns_ := true }, .ok ())

/-- Modelled from the spec: the body of
`LakeSoulDataReader::SetObjectStoreConfigs` is not in the source tree.  Spec
section 4.1: replaces the full set of (key, value) pairs; must be set before
the reader is created, frozen afterwards. -/
def SetObjectStoreConfigs (r : LakeSoulDataReader)
    (configs : List (String × String)) :
    LakeSoulDataReader × Except Error Unit :=
  if r.reader_.isSome then (r, .error .ConfigurationFrozen)
  else ({ r with object_store_configs_ := configs }, .ok ())

end LakeSoulDataReader

/-- A reader together with the engine-contact instrumentation. -/
structure ReaderRun where
  rd : LakeSoulDataReader
  log : EngineLog
  deriving Repr, DecidableEq

/-- Modelled from the spec: the body of `LakeSoulDataReader::StartReader` is
not in the source tree.  Spec section 4.1: idempotent; the first call invokes
the engine's reader-construction call (counted in `initCalls`), storing the
resulting tagged success/error variant in `reader_`.  On error the call fails
with `EngineInitError` carrying the engine's diagnostic text; `Failed` is
terminal, no internal retry is attempted (section 4.2 state machine).  Calls
after success are no-ops. -/
def StartReader (eng : FakeEngine) (s : ReaderRun) :
    ReaderRun × Except Error Unit :=
  match s.rd.reader_ with
  | some (.ok _) => (s, .ok ())
  | some (.error e) => (s, .error (.EngineInitError e))
  | none =>
    let log := { s.log with initCalls := s.log.initCalls + 1 }
    match eng.initOutcome with
    | .ok _ =>
      ({ rd := { s.rd with reader_ := some (.ok ()) }, log := log }, .ok ())
    | .error e =>
      ({ rd := { s.rd with reader_ := some (.error e) }, log := log },
        .error (.EngineInitError e))

/-- The outcome of one asynchronous batch pull. -/
inductive ReadResult where
  | batch (b : Batch)
  | completed
  | failure (e : String)
  deriving Repr, DecidableEq

/-- Materialize the partition (key, value) pairs as regular output columns
appended to a batch, each holding its partition value in every row (spec
section 4.1, retain-partition-columns enabled). -/
def materializePartitionColumns (info : List (String × String)) (b : Batch) :
    Batch :=
  { cols := b.cols ++
      info.map (fun kv => { name := kv.1
                            values := List.replicate b.numRows kv.2 }) }

/-- Modelled from the spec: the body of
`LakeSoulDataReader::ReadRecordBatchAsync` is not in the source tree.  Spec
sections 4.1 and 5: after `finished_` is set, the call immediately signals
completion without contacting the engine; otherwise one engine pull is made
(counted in `pullCalls`), yielding the next decoded batch (with partition
columns materialized when the retain flag is enabled), or end-of-stream
(setting `finished_`), or a `ReadError` carrying the engine diagnostic.  The
spec precondition that the reader has been started is not re-checked here. -/
def ReadRecordBatchAsync (eng : FakeEngine) (s : ReaderRun) :
    ReaderRun × ReadResult :=
  if s.rd.finished_ then (s, .completed)
  else
    let log := { s.log with pullCalls := s.log.pullCalls + 1 }
    match eng.emissions[s.log.pullCalls]? with
    | none => ({ rd := { s.rd with finished_ := true }, log := log },
               .completed)
    | some (.batch b) =>
      let out := if s.rd.retain_partition_columns_ then
          materializePartitionColumns s.rd.partition_info_ b
        else b
      ({ rd := s.rd, log := log }, .batch out)
    | some (.failure e) => ({ rd := s.rd, log := log }, .failure e)

/-- The state of `lakesoul::LakeSoulFragment`, embedded field by field from
`lib/include/lakesoul/fragment.h` (lines 52-60).  `data_reader_` embeds
`std::shared_ptr<LakeSoulDataReader>`: `none` while the shared pointer is
null (reader not yet created).  Default member initializers are taken from
the header. -/
structure LakeSoulFragment where
  schema_ : Schema
  file_urls_ : List String
  primary_keys_ : List String
  partition_info_ : List (String × String)
  data_reader_ : Option LakeSoulDataReader
  object_store_configs_ : List (String × String)
  batch_size_ : Int
  thread_num_ : Int
  retain_partition_columns_ : Bool
  deriving Repr, DecidableEq

namespace LakeSoulFragment

/-- Modelled from the spec: the body of the constructor
`LakeSoulFragment(std::shared_ptr<arrow::Schema> schema)` is not in the
source tree.  Spec section 4.2 constructor contract: the schema must be
non-null and non-empty, else construction itself fails (`none`); otherwise
the schema is stored and every other field is left at its default member
initializer from the header. -/
def construct (schema : Option Schema) : Option LakeSoulFragment :=
  match schema with
  | none => none
  | some s =>
    if s.isEmpty then none
    else some
      { schema_ := s
        file_urls_ := []
        primary_keys_ := []
        partition_info_ := []
        data_reader_ := none
        object_store_configs_ := []
        batch_size_ := 16
        thread_num_ := 1
        retain_partition_columns_ := false }

/-- `GetBatchSize` returns the stored batch size. -/
def GetBatchSize (f : LakeSoulFragment) : Int := f.batch_size_

/-- `GetThreadNum` returns the stored thread count. -/
def GetThreadNum (f : LakeSoulFragment) : Int := f.thread_num_

/-- Modelled from the spec: the body of `LakeSoulFragment::type_name` is not
in the source tree.  Spec section 4.2: a static descriptor string identifying
this adapter kind; no state. -/
def type_name (_f : LakeSoulFragment) : String := "lakesoul_fragment"

/-- Modelled from the spec: the body of
`LakeSoulFragment::ReadPhysicalSchemaImpl` is not in the source tree.  Spec
section 4.2: returns the adapter's fixed schema; never fails once the schema
was supplied at construction. -/
def ReadPhysicalSchemaImpl (f : LakeSoulFragment) : Except Error Schema :=
  .ok f.schema_

/-- Modelled from the spec: the body of `LakeSoulFragment::AddFileUrl` is not
in the source tree.  Spec section 4.2: append-only while the reader is not
yet created; afterwards fails with `ConfigurationFrozen`, state unchanged. -/
def AddFileUrl (f : LakeSoulFragment) (file_url : String) :
    LakeSoulFragment × Except Error Unit :=
  if f.data_reader_.isSome then (f, .error .ConfigurationFrozen)
  else ({ f with file_urls_ := f.file_urls_ ++ [file_url] }, .ok ())

/-- Modelled from the spec: the body of `LakeSoulFragment::AddFileUrls` is
not in the source tree.  Appends all given file urls in order, under the same
append-only/freeze contract as `AddFileUrl`. -/
def AddFileUrls (f : LakeSoulFragment) (file_urls : List String) :
    LakeSoulFragment × Except Error Unit :=
  if f.data_reader_.isSome then (f, .error .ConfigurationFrozen)
  else ({ f with file_urls_ := f.file_urls_ ++ file_urls }, .ok ())

/-- Modelled from the spec: the body of `LakeSoulFragment::AddPrimaryKeys` is
not in the source tree.  Same append-only/freeze contract (spec section
4.2). -/
def AddPrimaryKeys (f : LakeSoulFragment) (pks : List String) :
    LakeSoulFragment × Except Error Unit :=
  if f.data_reader_.isSome then (f, .error .ConfigurationFrozen)
  else ({ f with primary_keys_ := f.primary_keys_ ++ pks }, .ok ())

/-- Modelled from the spec: the body of
`LakeSoulFragment::AddPartitionKeyValue` is not in the source tree.  Same
append-only/freeze contract (spec section 4.2). -/
def AddPartitionKeyValue (f : LakeSoulFragment) (key value : String) :
    LakeSoulFragment × Except Error Unit :=
  if f.data_reader_.isSome then (f, .error .ConfigurationFrozen)
  else ({ f with partition_info_ := f.partition_info_ ++ [(key, value)] },
        .ok ())

/-- Modelled from the spec: the body of
`LakeSoulFragment::AddPartitionKeyValues` is not in the source tree.  Same
append-only/freeze contract (spec section 4.2). -/
def AddPartitionKeyValues (f : LakeSoulFragment)
    (key_values : List (String × String)) :
    LakeSoulFragment × Except Error Unit :=
  if f.data_reader_.isSome then (f, .error .ConfigurationFrozen)
  else ({ f with partition_info_ := f.partition_info_ ++ key_values }, .ok ())

/-- Modelled from the spec: the body of `LakeSoulFragment::SetBatchSize` is
not in the source tree.  Spec section 4.2: forwarded verbatim to the
(possibly not-yet-created) Batch Reader configuration; once the reader
exists, behavior matches the frozen-configuration rule.  A non-positive
argument is rejected, leaving the stored value unchanged. -/
def SetBatchSize (f : LakeSoulFragment) (batch_size : Int) :
    LakeSoulFragment × Except Error Unit :=
  if f.data_reader_.isSome then (f, .error .ConfigurationFrozen)
  else if 0 < batch_size then ({ f with batch_size_ := batch_size }, .ok ())
  else (f, .ok ())

/-- Modelled from the spec: the body of `LakeSoulFragment::SetThreadNum` is
not in the source tree.  Same contract as the fragment's `SetBatchSize`. -/
def SetThreadNum (f : LakeSoulFragment) (thread_num : Int) :
    LakeSoulFragment × Except Error Unit :=
  if f.data_reader_.isSome then (f, .error .ConfigurationFrozen)
  else if 0 < thread_num then ({ f with thread_num_ := thread_num }, .ok ())
  else (f, .ok ())

/-- Modelled from the spec: the body of
`LakeSoulFragment::SetRetainPartitionColumns` is not in the source tree.  The
declared signature takes no argument, so the only action available is
enabling the flag; frozen once the reader exists. -/
def SetRetainPartitionColumns (f : LakeSoulFragment) :
    LakeSoulFragment × Except Error Unit :=
  if f.data_reader_.isSome then (f, .error .ConfigurationFrozen)
  else ({ f with retain_partition_columns_ := true }, .ok ())

/-- Modelled from the spec: the body of
`LakeSoulFragment::SetObjectStoreConfigs` is not in the source tree.
Replaces the full set of (key, value) pairs; frozen once the reader
exists. -/
def SetObjectStoreConfigs (f : LakeSoulFragment)
    (configs : List (String × String)) :
    LakeSoulFragment × Except Error Unit :=
  if f.data_reader_.isSome then (f, .error .ConfigurationFrozen)
  else ({ f with object_store_configs_ := configs }, .ok ())

/-- Build the owned Batch Reader from the fragment's accumulated
configuration: the constructor arguments plus the forwarded tuning fields
(spec sections 4.2 and 2: the adapter lazily creates its Batch Reader with
accumulated configuration). -/
def makeReader (f : LakeSoulFragment) : LakeSoulDataReader :=
  { schema_ := f.schema_
    file_urls_ := f.file_urls_
    primary_keys_ := f.primary_keys_
    partition_info_ := f.partition_info_
    object_store_configs_ := f.object_store_configs_
    batch_size_ := f.batch_size_
    thread_num_ := f.thread_num_
    reader_ := none
    finished_ := false
    retain_partition_columns_ := f.retain_partition_columns_ }

end LakeSoulFragment

/-- A fragment together with the engine-contact instrumentation. -/
structure FragmentRun where
  frag : LakeSoulFragment
  log : EngineLog
  deriving Repr, DecidableEq

/-- Modelled from the spec: the body of
`LakeSoulFragment::CreateDataReader` is not in the source tree.  Spec section
4.2: idempotent; lazily instantiates the owned Batch Reader using the
adapter's accumulated configuration (only when `data_reader_` is still
null), then calls its `start`; any `EngineInitError` is propagated
unchanged. -/
def CreateDataReader (eng : FakeEngine) (s : FragmentRun) :
    FragmentRun × Except Error Unit :=
  let rd := match s.frag.data_reader_ with
    | some rd => rd
    | none => s.frag.makeReader
  let p := StartReader eng { rd := rd, log := s.log }
  ({ frag := { s.frag with data_reader_ := some p.1.rd }, log := p.1.log },
    p.2)

/-- Modelled from the spec: the batch-generator loop of
`LakeSoulFragment::ScanBatchesAsync` is not in the source tree.  Repeatedly
pulls record batches from the started reader, collecting them in emission
order, until the reader signals completion (terminating the sequence) or an
error (surfaced as the sequence's terminal `ReadError`).  The `fuel`
argument bounds the number of pulls; callers pass at least
`eng.emissions.length + 1`, which always suffices because every engine pull
consumes one emission and an exhausted emission list signals completion. -/
def drainReaderLoop (eng : FakeEngine) :
    Nat → ReaderRun → (List Batch × Option Error) × ReaderRun
  | 0, s => (([], none), s)
  | fuel + 1, s =>
    match ReadRecordBatchAsync eng s with
    | (s2, .batch b) =>
      let r := drainReaderLoop eng fuel s2
      ((b :: r.1.1, r.1.2), r.2)
    | (s2, .completed) => (([], none), s2)
    | (s2, .failure e) => (([], some (.ReadError e)), s2)

/-- Modelled from the spec: the body of `LakeSoulFragment::ScanBatchesAsync`
is not in the source tree.  Spec section 4.2: produces a finite sequence of
batches by invoking `create reader` (once) and then `read batch` on the
Batch Reader until completion or error; any error from the reader is
surfaced as the sequence's terminal error.  Returns the yielded batches in
order, the terminal error (if any), and the post-scan state. -/
def ScanBatchesAsync (eng : FakeEngine) (s : FragmentRun) :
    (List Batch × Option Error) × FragmentRun :=
  match CreateDataReader eng s with
  | (s2, .error e) => (([], some e), s2)
  | (s2, .ok _) =>
    match s2.frag.data_reader_ with
    | none => (([], none), s2)
    | some rd =>
      let r := drainReaderLoop eng (eng.emissions.length + 1)
        { rd := rd, log := s2.log }
      (r.1, { frag := { s2.frag with data_reader_ := some r.2.rd },
              log := r.2.log })

/-- The public operations of `LakeSoulDataReader`, as declared in the
header: the mutators and the two engine-facing calls.  (The `const` getters
`GetBatchSize`, `GetThreadNum`, `IsFinished` do not change state.) -/
inductive ReaderOp where
  | setBatchSize (batch_size : Int)
  | setThreadNum (thread_num : Int)
  | setRetainPartitionColumns
  | setObjectStoreConfigs (configs : List (String × String))
  | startReader
  | readRecordBatchAsync
  deriving Repr, DecidableEq

/-- Apply one public `LakeSoulDataReader` operation to an instrumented
reader state, discarding the operation's return value. -/
def stepReader (eng : FakeEngine) (op : ReaderOp) (s : ReaderRun) :
    ReaderRun :=
  match op with
  | .setBatchSize n => { s with rd := (s.rd.SetBatchSize n).1 }
  | .setThreadNum n => { s with rd := (s.rd.SetThreadNum n).1 }
  | .setRetainPartitionColumns =>
    { s with rd := s.rd.SetRetainPartitionColumns.1 }
  | .setObjectStoreConfigs cfgs =>
    { s with rd := (s.rd.SetObjectStoreConfigs cfgs).1 }
  | .startReader => (StartReader eng s).1
  | .readRecordBatchAsync => (ReadRecordBatchAsync eng s).1

/-- The public operations of `LakeSoulFragment`, as declared in the header.
(The `const` getters and `ReadPhysicalSchemaImpl`/`type_name` do not change
state.) -/
inductive FragmentOp where
  | addFileUrl (file_url : String)
  | addFileUrls (file_urls : List String)
  | addPrimaryKeys (pks : List String)
  | addPartitionKeyValue (key value : String)
  | addPartitionKeyValues (key_values : List (String × String))
  | setBatchSize (batch_size : Int)
  | setThreadNum (thread_num : Int)
  | setRetainPartitionColumns
  | setObjectStoreConfigs (configs : List (String × String))
  | createDataReader
  | scanBatchesAsync
  deriving Repr, DecidableEq

/-- Apply one public `LakeSoulFragment` operation to an instrumented
fragment state, discarding the operation's return value. -/
def stepFragment (eng : FakeEngine) (op : FragmentOp) (s : FragmentRun) :
    FragmentRun :=
  match op with
  | .addFileUrl u => { s with frag := (s.frag.AddFileUrl u).1 }
  | .addFileUrls us => { s with frag := (s.frag.AddFileUrls us).1 }
  | .addPrimaryKeys ks => { s with frag := (s.frag.AddPrimaryKeys ks).1 }
  | .addPartitionKeyValue k v =>
    { s with frag := (s.frag.AddPartitionKeyValue k v).1 }
  | .addPartitionKeyValues kvs =>
    { s with frag := (s.frag.AddPartitionKeyValues kvs).1 }
  | .setBatchSize n => { s with frag := (s.frag.SetBatchSize n).1 }
  | .setThreadNum n => { s with frag := (s.frag.SetThreadNum n).1 }
  | .setRetainPartitionColumns =>
    { s with frag := s.frag.SetRetainPartitionColumns.1 }
  | .setObjectStoreConfigs cfgs =>
    { s with frag := (s.frag.SetObjectStoreConfigs cfgs).1 }
  | .createDataReader => (CreateDataReader eng s).1
  | .scanBatchesAsync => (ScanBatchesAsync eng s).2

/-! Concrete fixtures used to instantiate the theorems below on concrete
inputs. -/

/-- A concrete one-column schema. -/
def sampleSchema : Schema := [("x", "int")]

/-- A concrete two-row batch. -/
def sampleBatch : Batch := { cols := [{ name := "x", values := ["1", "2"] }] }

/-- A second concrete batch. -/
def sampleBatch2 : Batch := { cols := [{ name := "x", values := ["3"] }] }

/-- A concrete fake engine that constructs its reader successfully and emits
two batches before end-of-stream. -/
def sampleEngine : FakeEngine :=
  { initOutcome := .ok (), emissions := [.batch sampleBatch, .batch sampleBatch2] }

/-- A concrete freshly constructed reader. -/
def sampleReader : LakeSoulDataReader :=
  LakeSoulDataReader.construct sampleSchema ["s3://bucket/f1.parquet"]
    ["id"] [("year", "2024")]

/-- A fresh engine-contact log. -/
def sampleLog : EngineLog := { initCalls := 0, pullCalls := 0 }

/-- A concrete instrumented run of the freshly constructed reader. -/
def sampleRun : ReaderRun := { rd := sampleReader, log := sampleLog }

/-- A concrete freshly constructed fragment (the value
`LakeSoulFragment.construct (some sampleSchema)` produces). -/
def sampleFragment : LakeSoulFragment :=
  { schema_ := sampleSchema
    file_urls_ := []
    primary_keys_ := []
    partition_info_ := []
    data_reader_ := none
    object_store_configs_ := []
    batch_size_ := 16
    thread_num_ := 1
    retain_partition_columns_ := false }

/-- A concrete instrumented run of the freshly constructed fragment. -/
def sampleFragmentRun : FragmentRun := { frag := sampleFragment, log := sampleLog }

/-- A concrete fake engine whose reader-construction call fails. -/
def sampleEngineInitFail : FakeEngine :=
  { initOutcome := .error "engine down", emissions := [] }

/-- A concrete fake engine that emits one batch and then fails
mid-stream. -/
def sampleEngineMidFail : FakeEngine :=
  { initOutcome := .ok (), emissions := [.batch sampleBatch, .failure "disk gone"] }

/-- A concrete reader whose engine handle has been created. -/
def sampleStartedReader : LakeSoulDataReader :=
  { sampleReader with reader_ := some (.ok ()) }

/-- A concrete fragment whose owned reader has been created. -/
def sampleStartedFragment : LakeSoulFragment :=
  { sampleFragment with data_reader_ := some sampleStartedReader }

/-- A concrete reader with the retain-partition-columns flag enabled. -/
def sampleRetainReader : LakeSoulDataReader :=
  { sampleReader with retain_partition_columns_ := true }

/-! Theorems. -/

/-- C9: for every freshly constructed `LakeSoulDataReader` and
`LakeSoulFragment`, before any setter is called, `GetBatchSize` returns 16,
`GetThreadNum` returns 1, the retain-partition-columns flag is false, and
(for the reader) `IsFinished` is false — the default member initializers of
both headers. -/
theorem defaults_after_construction (schema : Schema)
    (file_urls primary_keys : List String)
    (partition_info : List (String × String)) (os : Option Schema)
    (f : LakeSoulFragment) (hf : LakeSoulFragment.construct os = some f) :
    ((LakeSoulDataReader.construct schema file_urls primary_keys
        partition_info).GetBatchSize = 16 ∧
      (LakeSoulDataReader.construct schema file_urls primary_keys
        partition_info).GetThreadNum = 1 ∧
      (LakeSoulDataReader.construct schema file_urls primary_keys
        partition_info).retain_partition_columns_ = false ∧
      (LakeSoulDataReader.construct schema file_urls primary_keys
        partition_info).IsFinished = false) ∧
    (f.GetBatchSize = 16 ∧ f.GetThreadNum = 1 ∧
      f.retain_partition_columns_ = false) := by
  refine ⟨⟨rfl, rfl, rfl, rfl⟩, ?_⟩
  cases os with
  | none => simp [LakeSoulFragment.construct] at hf
  | some s =>
    by_cases h : s.isEmpty
    · simp [LakeSoulFragment.construct, h] at hf
    · simp [LakeSoulFragment.construct, h] at hf
      subst hf
      exact ⟨rfl, rfl, rfl⟩

/-- Witness for C9 at a concrete schema. -/
theorem defaults_after_construction_witness :
    (LakeSoulFragment.construct (some sampleSchema) = some sampleFragment) ∧
      (sampleFragment.GetBatchSize = 16 ∧ sampleFragment.GetThreadNum = 1 ∧
        sampleFragment.retain_partition_columns_ = false) :=
  ⟨rfl,
    (defaults_after_construction sampleSchema [] [] [] (some sampleSchema)
      sampleFragment rfl).2⟩

/-- C1: start is idempotent.  For a reader whose engine handle has not been
created yet, the first `StartReader` call makes exactly one engine
reader-construction call and assigns `reader_` (so it is assigned at most
once), and the second call returns the same state and result without any
further engine contact; likewise, on a fragment whose reader has not been
created yet, two `CreateDataReader` calls make exactly one engine
reader-construction call and the second call is a no-op. -/
theorem start_create_reader_idempotent (eng : FakeEngine) (s : ReaderRun)
    (g : FragmentRun) (hs : s.rd.reader_ = none)
    (hg : g.frag.data_reader_ = none) :
    ((StartReader eng s).1.log.initCalls = s.log.initCalls + 1 ∧
      ((StartReader eng s).1.rd.reader_).isSome = true ∧
      StartReader eng (StartReader eng s).1 = StartReader eng s) ∧
    ((CreateDataReader eng g).1.log.initCalls = g.log.initCalls + 1 ∧
      CreateDataReader eng (CreateDataReader eng g).1 =
        CreateDataReader eng g) := by
  constructor
  · cases hE : eng.initOutcome with
    | ok u => simp [StartReader, hs, hE]
    | error e => simp [StartReader, hs, hE]
  · cases hE : eng.initOutcome with
    | ok u =>
      simp [CreateDataReader, StartReader, hg, LakeSoulFragment.makeReader, hE]
    | error e =>
      simp [CreateDataReader, StartReader, hg, LakeSoulFragment.makeReader, hE]

/-- Witness for C1 at the concrete sample reader and fragment. -/
theorem start_create_reader_idempotent_witness :
    (sampleRun.rd.reader_ = none ∧ sampleFragmentRun.frag.data_reader_ = none) ∧
      (StartReader sampleEngine (StartReader sampleEngine sampleRun).1 =
          StartReader sampleEngine sampleRun ∧
        CreateDataReader sampleEngine
            (CreateDataReader sampleEngine sampleFragmentRun).1 =
          CreateDataReader sampleEngine sampleFragmentRun) :=
  ⟨⟨rfl, rfl⟩,
    (start_create_reader_idempotent sampleEngine sampleRun sampleFragmentRun
        rfl rfl).1.2.2,
    (start_create_reader_idempotent sampleEngine sampleRun sampleFragmentRun
        rfl rfl).2.2⟩

/-- C2: the finished flag is monotone.  `finished_` starts false on a freshly
constructed reader, every public reader operation takes `IsFinished` only
from false to true (never resets it), and once `IsFinished` is true a
`ReadRecordBatchAsync` call returns the unchanged state — in particular the
engine pull-call count is unchanged, so the engine is not contacted — and
immediately signals completion. -/
theorem finished_flag_monotone (eng : FakeEngine) (op : ReaderOp)
    (s : ReaderRun) (schema : Schema) (file_urls primary_keys : List String)
    (partition_info : List (String × String)) :
    (LakeSoulDataReader.construct schema file_urls primary_keys
        partition_info).IsFinished = false ∧
    (s.rd.IsFinished = true → (stepReader eng op s).rd.IsFinished = true) ∧
    (s.rd.IsFinished = true →
      ReadRecordBatchAsync eng s = (s, .completed)) := by
  refine ⟨rfl, ?_, ?_⟩
  · intro h
    cases op with
    | setBatchSize n =>
      simp only [stepReader, LakeSoulDataReader.IsFinished,
        LakeSoulDataReader.SetBatchSize] at h ⊢
      split <;> [exact h; skip]
      split <;> exact h
    | setThreadNum n =>
      simp only [stepReader, LakeSoulDataReader.IsFinished,
        LakeSoulDataReader.SetThreadNum] at h ⊢
      split <;> [exact h; skip]
      split <;> exact h
    | setRetainPartitionColumns =>
      simp only [stepReader, LakeSoulDataReader.IsFinished,
        LakeSoulDataReader.SetRetainPartitionColumns] at h ⊢
      split <;> exact h
    | setObjectStoreConfigs cfgs =>
      simp only [stepReader, LakeSoulDataReader.IsFinished,
        LakeSoulDataReader.SetObjectStoreConfigs] at h ⊢
      split <;> exact h
    | startReader =>
      simp only [stepReader, LakeSoulDataReader.IsFinished, StartReader] at h ⊢
      split <;> try exact h
      split <;> exact h
    | readRecordBatchAsync =>
      simp only [stepReader, LakeSoulDataReader.IsFinished,
        ReadRecordBatchAsync] at h ⊢
      simp [h]
  · intro h
    simp only [LakeSoulDataReader.IsFinished] at h
    simp [ReadRecordBatchAsync, h]

/-- Witness for C2: a reader whose finished flag is set stays finished under
a pull, and the pull immediately signals completion without an engine
contact. -/
theorem finished_flag_monotone_witness :
    (stepReader sampleEngine .readRecordBatchAsync
        { rd := { sampleReader with finished_ := true },
          log := sampleLog }).rd.IsFinished = true ∧
      ReadRecordBatchAsync sampleEngine
          { rd := { sampleReader with finished_ := true }, log := sampleLog } =
        ({ rd := { sampleReader with finished_ := true }, log := sampleLog },
          .completed) :=
  ⟨(finished_flag_monotone sampleEngine .readRecordBatchAsync
      { rd := { sampleReader with finished_ := true }, log := sampleLog }
      [] [] [] []).2.1 rfl,
    (finished_flag_monotone sampleEngine .readRecordBatchAsync
      { rd := { sampleReader with finished_ := true }, log := sampleLog }
      [] [] [] []).2.2 rfl⟩

/-- When the engine stream holds exactly the batches `bs` from the current
pull position on, draining an unfinished reader with enough fuel yields
those batches in emission order (materializing partition columns when the
retain flag is enabled) and terminates by completion. -/
theorem drain_emits_all (eng : FakeEngine) (bs : List Batch) (fuel : Nat)
    (s : ReaderRun) (hf : s.rd.finished_ = false)
    (hdrop : eng.emissions.drop s.log.pullCalls = bs.map Pull.batch)
    (hlen : bs.length < fuel) :
    (drainReaderLoop eng fuel s).1 =
      (bs.map (fun b => if s.rd.retain_partition_columns_ then
          materializePartitionColumns s.rd.partition_info_ b else b),
        none) := by
  induction bs generalizing fuel s with
  | nil =>
    have hget : eng.emissions[s.log.pullCalls]? = none := by
      have h0 := List.getElem?_drop eng.emissions s.log.pullCalls 0
      rw [hdrop] at h0
      simpa using h0.symm
    cases fuel with
    | zero => simp at hlen
    | succ k => simp [drainReaderLoop, ReadRecordBatchAsync, hf, hget]
  | cons b rest ih =>
    have hget : eng.emissions[s.log.pullCalls]? = some (.batch b) := by
      have h0 := List.getElem?_drop eng.emissions s.log.pullCalls 0
      rw [hdrop] at h0
      simpa using h0.symm
    have hdrop2 : eng.emissions.drop (s.log.pullCalls + 1) =
        rest.map Pull.batch := by
      have h1 : (eng.emissions.drop s.log.pullCalls).drop 1 =
          rest.map Pull.batch := by rw [hdrop]; rfl
      rw [List.drop_drop] at h1
      simpa [Nat.add_comm] using h1
    cases fuel with
    | zero => simp at hlen
    | succ k =>
      have hk : rest.length < k := by simpa using hlen
      have := ih k
        { rd := s.rd, log := { s.log with pullCalls := s.log.pullCalls + 1 } }
        hf hdrop2 hk
      simp [drainReaderLoop, ReadRecordBatchAsync, hf, hget, this]

/-- When the engine stream holds the batches `bs` and then a mid-stream
failure from the current pull position on, draining an unfinished reader
with enough fuel yields exactly those batches and terminates with the
`ReadError` carrying the engine's diagnostic as the sequence's terminal
element. -/
theorem drain_error_terminal (eng : FakeEngine) (bs : List Batch) (e : String)
    (tail : List Pull) (fuel : Nat) (s : ReaderRun)
    (hf : s.rd.finished_ = false)
    (hdrop : eng.emissions.drop s.log.pullCalls =
      bs.map Pull.batch ++ Pull.failure e :: tail)
    (hlen : bs.length < fuel) :
    (drainReaderLoop eng fuel s).1 =
      (bs.map (fun b => if s.rd.retain_partition_columns_ then
          materializePartitionColumns s.rd.partition_info_ b else b),
        some (.ReadError e)) := by
  induction bs generalizing fuel s with
  | nil =>
    have hget : eng.emissions[s.log.pullCalls]? = some (.failure e) := by
      have h0 := List.getElem?_drop eng.emissions s.log.pullCalls 0
      rw [hdrop] at h0
      simpa using h0.symm
    cases fuel with
    | zero => simp at hlen
    | succ k => simp [drainReaderLoop, ReadRecordBatchAsync, hf, hget]
  | cons b rest ih =>
    have hget : eng.emissions[s.log.pullCalls]? = some (.batch b) := by
      have h0 := List.getElem?_drop eng.emissions s.log.pullCalls 0
      rw [hdrop] at h0
      simpa using h0.symm
    have hdrop2 : eng.emissions.drop (s.log.pullCalls + 1) =
        rest.map Pull.batch ++ Pull.failure e :: tail := by
      have h1 : (eng.emissions.drop s.log.pullCalls).drop 1 =
          rest.map Pull.batch ++ Pull.failure e :: tail := by rw [hdrop]; rfl
      rw [List.drop_drop] at h1
      simpa [Nat.add_comm] using h1
    cases fuel with
    | zero => simp at hlen
    | succ k =>
      have hk : rest.length < k := by simpa using hlen
      have := ih k
        { rd := s.rd, log := { s.log with pullCalls := s.log.pullCalls + 1 } }
        hf hdrop2 hk
      simp [drainReaderLoop, ReadRecordBatchAsync, hf, hget, this]

/-- Every batch yielded while draining a reader is an engine-emitted batch,
materialized with the reader's partition columns exactly when the retain
flag is enabled. -/
theorem mem_drain (eng : FakeEngine) (fuel : Nat) (s : ReaderRun) (b : Batch)
    (hb : b ∈ (drainReaderLoop eng fuel s).1.1) :
    ∃ b0, Pull.batch b0 ∈ eng.emissions ∧
      b = (if s.rd.retain_partition_columns_ then
        materializePartitionColumns s.rd.partition_info_ b0 else b0) := by
  induction fuel generalizing s with
  | zero => simp [drainReaderLoop] at hb
  | succ k ih =>
    cases hf : s.rd.finished_ with
    | true => simp [drainReaderLoop, ReadRecordBatchAsync, hf] at hb
    | false =>
      cases hget : eng.emissions[s.log.pullCalls]? with
      | none => simp [drainReaderLoop, ReadRecordBatchAsync, hf, hget] at hb
      | some p =>
        cases p with
        | batch b0 =>
          simp [drainReaderLoop, ReadRecordBatchAsync, hf, hget] at hb
          rcases hb with hb | hb
          · exact ⟨b0, List.getElem?_mem hget, hb⟩
          · exact ih
              { rd := s.rd,
                log := { s.log with pullCalls := s.log.pullCalls + 1 } } hb
        | failure e =>
          simp [drainReaderLoop, ReadRecordBatchAsync, hf, hget] at hb

/-- C3: order preservation.  For every fake engine that constructs its
reader successfully and emits exactly the batch sequence `bs`, scanning a
fresh fragment (reader not yet created, retain flag at its default `false`,
no pulls made yet) yields exactly `bs` in the engine's emission order and
then terminates with no error: no reordering, duplication, or dropping of
batches. -/
theorem scan_batches_preserves_order (eng : FakeEngine) (bs : List Batch)
    (s : FragmentRun) (hinit : eng.initOutcome = .ok ())
    (hem : eng.emissions = bs.map Pull.batch)
    (hrd : s.frag.data_reader_ = none)
    (hret : s.frag.retain_partition_columns_ = false)
    (hp : s.log.pullCalls = 0) :
    (ScanBatchesAsync eng s).1 = (bs, none) := by
  have hdrain := drain_emits_all eng bs (eng.emissions.length + 1)
    { rd := { s.frag.makeReader with reader_ := some (.ok ()) },
      log := { s.log with initCalls := s.log.initCalls + 1 } }
    rfl (by simpa [LakeSoulFragment.makeReader, hp] using hem)
    (by simp [hem])
  simp [ScanBatchesAsync, CreateDataReader, StartReader, hrd, hinit,
    LakeSoulFragment.makeReader] at hdrain ⊢
  simpa [LakeSoulFragment.makeReader, hret] using hdrain

/-- Witness for C3: the sample engine emits two batches and the fresh
sample fragment yields exactly those two batches in order, then
terminates. -/
theorem scan_batches_preserves_order_witness :
    (ScanBatchesAsync sampleEngine sampleFragmentRun).1 =
      ([sampleBatch, sampleBatch2], none) :=
  scan_batches_preserves_order sampleEngine [sampleBatch, sampleBatch2]
    sampleFragmentRun rfl rfl rfl rfl rfl

/-- C4: error propagation.  An engine error during reader construction makes
`StartReader` and `CreateDataReader` fail with `EngineInitError` carrying
the engine's diagnostic text unchanged; a mid-stream engine error makes
`ReadRecordBatchAsync` fail carrying the diagnostic unchanged; and a
mid-stream error terminates the scan-batches sequence as its terminal
element, a `ReadError` with the unchanged diagnostic, after the batches
already delivered. -/
theorem engine_error_propagation (eng : FakeEngine) (e : String)
    (s : ReaderRun) (g : FragmentRun) (bs : List Batch) (tail : List Pull) :
    (eng.initOutcome = .error e → s.rd.reader_ = none →
      (StartReader eng s).2 = .error (.EngineInitError e)) ∧
    (eng.initOutcome = .error e → g.frag.data_reader_ = none →
      (CreateDataReader eng g).2 = .error (.EngineInitError e)) ∧
    (s.rd.finished_ = false →
      eng.emissions[s.log.pullCalls]? = some (.failure e) →
      (ReadRecordBatchAsync eng s).2 = .failure e) ∧
    (eng.initOutcome = .ok () → g.frag.data_reader_ = none →
      g.frag.retain_partition_columns_ = false → g.log.pullCalls = 0 →
      eng.emissions = bs.map Pull.batch ++ Pull.failure e :: tail →
      (ScanBatchesAsync eng g).1 = (bs, some (.ReadError e))) := by
  refine ⟨?_, ?_, ?_, ?_⟩
  · intro hE hs
    simp [StartReader, hs, hE]
  · intro hE hg
    simp [CreateDataReader, StartReader, hg, LakeSoulFragment.makeReader, hE]
  · intro hf hget
    simp [ReadRecordBatchAsync, hf, hget]
  · intro hE hg hret hp hem
    have hlen : bs.length < eng.emissions.length + 1 := by
      simp [hem]
      omega
    have hdrain := drain_error_terminal eng bs e tail
      (eng.emissions.length + 1)
      { rd := { g.frag.makeReader with reader_ := some (.ok ()) },
        log := { g.log with initCalls := g.log.initCalls + 1 } }
      rfl (by simpa [LakeSoulFragment.makeReader, hp] using hem) hlen
    simp [ScanBatchesAsync, CreateDataReader, StartReader, hg, hE,
      LakeSoulFragment.makeReader] at hdrain ⊢
    simpa [LakeSoulFragment.makeReader, hret] using hdrain

/-- Witness for C4: the failing sample engines produce the exact diagnostic
texts through `StartReader`, `CreateDataReader`, `ReadRecordBatchAsync` and
the scan-batches sequence. -/
theorem engine_error_propagation_witness :
    (StartReader sampleEngineInitFail sampleRun).2 =
        .error (.EngineInitError "engine down") ∧
      (CreateDataReader sampleEngineInitFail sampleFragmentRun).2 =
        .error (.EngineInitError "engine down") ∧
      (ReadRecordBatchAsync sampleEngineMidFail
          { rd := sampleReader,
            log := { initCalls := 1, pullCalls := 1 } }).2 =
        .failure "disk gone" ∧
      (ScanBatchesAsync sampleEngineMidFail sampleFragmentRun).1 =
        ([sampleBatch], some (.ReadError "disk gone")) :=
  ⟨(engine_error_propagation sampleEngineInitFail "engine down" sampleRun
      sampleFragmentRun [] []).1 rfl rfl,
    (engine_error_propagation sampleEngineInitFail "engine down" sampleRun
      sampleFragmentRun [] []).2.1 rfl rfl,
    (engine_error_propagation sampleEngineMidFail "disk gone"
      { rd := sampleReader, log := { initCalls := 1, pullCalls := 1 } }
      sampleFragmentRun [] []).2.2.1 rfl rfl,
    (engine_error_propagation sampleEngineMidFail "disk gone" sampleRun
      sampleFragmentRun [sampleBatch] []).2.2.2 rfl rfl rfl rfl rfl⟩

/-- C5: configuration freeze.  Once the engine reader handle exists, every
setter on the reader and every setter and `Add*` operation on the fragment
fails with `ConfigurationFrozen` and returns the state unchanged — so every
configuration field (schema, file urls, primary keys, partition info,
object-store configs, batch size, thread count, retain flag) is left
exactly as it was. -/
theorem configuration_frozen_after_creation (r : LakeSoulDataReader)
    (f : LakeSoulFragment) (n m : Int) (u k v : String)
    (us ks : List String) (kvs cfgs : List (String × String))
    (hr : r.reader_.isSome = true) (hf : f.data_reader_.isSome = true) :
    (r.SetBatchSize n = (r, .error .ConfigurationFrozen) ∧
      r.SetThreadNum n = (r, .error .ConfigurationFrozen) ∧
      r.SetRetainPartitionColumns = (r, .error .ConfigurationFrozen) ∧
      r.SetObjectStoreConfigs cfgs = (r, .error .ConfigurationFrozen)) ∧
    (f.SetBatchSize n = (f, .error .ConfigurationFrozen) ∧
      f.SetThreadNum m = (f, .error .ConfigurationFrozen) ∧
      f.SetRetainPartitionColumns = (f, .error .ConfigurationFrozen) ∧
      f.SetObjectStoreConfigs cfgs = (f, .error .ConfigurationFrozen) ∧
      f.AddFileUrl u = (f, .error .ConfigurationFrozen) ∧
      f.AddFileUrls us = (f, .error .ConfigurationFrozen) ∧
      f.AddPrimaryKeys ks = (f, .error .ConfigurationFrozen) ∧
      f.AddPartitionKeyValue k v = (f, .error .ConfigurationFrozen) ∧
      f.AddPartitionKeyValues kvs = (f, .error .ConfigurationFrozen)) := by
  refine ⟨⟨?_, ?_, ?_, ?_⟩, ⟨?_, ?_, ?_, ?_, ?_, ?_, ?_, ?_, ?_⟩⟩ <;>
    simp [LakeSoulDataReader.SetBatchSize, LakeSoulDataReader.SetThreadNum,
      LakeSoulDataReader.SetRetainPartitionColumns,
      LakeSoulDataReader.SetObjectStoreConfigs,
      LakeSoulFragment.SetBatchSize, LakeSoulFragment.SetThreadNum,
      LakeSoulFragment.SetRetainPartitionColumns,
      LakeSoulFragment.SetObjectStoreConfigs, LakeSoulFragment.AddFileUrl,
      LakeSoulFragment.AddFileUrls, LakeSoulFragment.AddPrimaryKeys,
      LakeSoulFragment.AddPartitionKeyValue,
      LakeSoulFragment.AddPartitionKeyValues, hr, hf]

/-- Witness for C5 at a concrete started reader and fragment. -/
theorem configuration_frozen_after_creation_witness :
    sampleStartedReader.reader_.isSome = true ∧
      sampleStartedFragment.data_reader_.isSome = true ∧
      sampleStartedReader.SetBatchSize 32 =
        (sampleStartedReader, .error .ConfigurationFrozen) ∧
      sampleStartedFragment.AddFileUrl "s3://bucket/f2.parquet" =
        (sampleStartedFragment, .error .ConfigurationFrozen) :=
  ⟨rfl, rfl,
    (configuration_frozen_after_creation sampleStartedReader
      sampleStartedFragment 32 32 "s3://bucket/f2.parquet" "k" "v" [] [] [] []
      rfl rfl).1.1,
    (configuration_frozen_after_creation sampleStartedReader
      sampleStartedFragment 32 32 "s3://bucket/f2.parquet" "k" "v" [] [] [] []
      rfl rfl).2.2.2.2.2.1⟩

/-- A successful pull returns an engine-emitted batch, materialized with the
reader's partition columns exactly when the retain flag is enabled. -/
theorem readBatch_char (eng : FakeEngine) (s s2 : ReaderRun) (b : Batch)
    (h : ReadRecordBatchAsync eng s = (s2, .batch b)) :
    ∃ b0, eng.emissions[s.log.pullCalls]? = some (.batch b0) ∧
      b = (if s.rd.retain_partition_columns_ then
        materializePartitionColumns s.rd.partition_info_ b0 else b0) := by
  by_cases hf : s.rd.finished_
  · simp [ReadRecordBatchAsync, hf] at h
  · cases hget : eng.emissions[s.log.pullCalls]? with
    | none => simp [ReadRecordBatchAsync, hf, hget] at h
    | some p =>
      cases p with
      | batch b0 =>
        simp [ReadRecordBatchAsync, hf, hget] at h
        exact ⟨b0, rfl, h.2.symm⟩
      | failure e => simp [ReadRecordBatchAsync, hf, hget] at h

/-- Every batch yielded by a scan over a fresh fragment is an engine-emitted
batch, materialized with the fragment's partition columns exactly when the
retain flag is enabled. -/
theorem mem_scan_batches (eng : FakeEngine) (g : FragmentRun) (b : Batch)
    (hrd : g.frag.data_reader_ = none)
    (hb : b ∈ (ScanBatchesAsync eng g).1.1) :
    ∃ b0, Pull.batch b0 ∈ eng.emissions ∧
      b = (if g.frag.retain_partition_columns_ then
        materializePartitionColumns g.frag.partition_info_ b0 else b0) := by
  cases hE : eng.initOutcome with
  | error e =>
    simp [ScanBatchesAsync, CreateDataReader, StartReader, hrd, hE,
      LakeSoulFragment.makeReader] at hb
  | ok u =>
    simp [ScanBatchesAsync, CreateDataReader, StartReader, hrd, hE,
      LakeSoulFragment.makeReader] at hb
    have := mem_drain eng (eng.emissions.length + 1)
      { rd := { g.frag.makeReader with reader_ := some (.ok ()) },
        log := { g.log with initCalls := g.log.initCalls + 1 } } b
      (by simpa [LakeSoulFragment.makeReader] using hb)
    simpa [LakeSoulFragment.makeReader] using this

/-- Materializing the partition pair `("year", "2024")` adds a column named
`year` holding `"2024"` in every row. -/
theorem year_column_mem (b0 : Batch) :
    ∃ c ∈ (materializePartitionColumns [("year", "2024")] b0).cols,
      c.name = "year" ∧ ∀ v ∈ c.values, v = "2024" := by
  refine ⟨{ name := "year", values := List.replicate b0.numRows "2024" },
    ?_, rfl, ?_⟩
  · simp [materializePartitionColumns]
  · intro v hv
    exact List.eq_of_mem_replicate hv

/-- C6: partition-column materialization.  With the retain flag enabled and
partition pairs `[("year", "2024")]`, every batch yielded by
`ReadRecordBatchAsync` or `ScanBatchesAsync` contains a column named `year`
whose value is `"2024"` in every row; with the flag disabled (its default)
no such column appears in any yielded batch, provided the engine's own
emissions carry no `year` column (partition columns are file-placement
metadata, not file contents). -/
theorem partition_column_materialization (eng : FakeEngine) :
    (∀ (s s2 : ReaderRun) (b : Batch),
      s.rd.retain_partition_columns_ = true →
      s.rd.partition_info_ = [("year", "2024")] →
      ReadRecordBatchAsync eng s = (s2, .batch b) →
      ∃ c ∈ b.cols, c.name = "year" ∧ ∀ v ∈ c.values, v = "2024") ∧
    (∀ (s s2 : ReaderRun) (b : Batch),
      s.rd.retain_partition_columns_ = false →
      (∀ b0, Pull.batch b0 ∈ eng.emissions → ∀ c ∈ b0.cols, c.name ≠ "year") →
      ReadRecordBatchAsync eng s = (s2, .batch b) →
      ∀ c ∈ b.cols, c.name ≠ "year") ∧
    (∀ (g : FragmentRun) (b : Batch),
      g.frag.retain_partition_columns_ = true →
      g.frag.partition_info_ = [("year", "2024")] →
      g.frag.data_reader_ = none →
      b ∈ (ScanBatchesAsync eng g).1.1 →
      ∃ c ∈ b.cols, c.name = "year" ∧ ∀ v ∈ c.values, v = "2024") ∧
    (∀ (g : FragmentRun) (b : Batch),
      g.frag.retain_partition_columns_ = false →
      (∀ b0, Pull.batch b0 ∈ eng.emissions → ∀ c ∈ b0.cols, c.name ≠ "year") →
      g.frag.data_reader_ = none →
      b ∈ (ScanBatchesAsync eng g).1.1 →
      ∀ c ∈ b.cols, c.name ≠ "year") := by
  refine ⟨?_, ?_, ?_, ?_⟩
  · intro s s2 b hret hinfo h
    rcases readBatch_char eng s s2 b h with ⟨b0, _, hb⟩
    rw [hret] at hb
    simp only [if_true] at hb
    rw [hinfo] at hb
    subst hb
    exact year_column_mem b0
  · intro s s2 b hret hno h
    rcases readBatch_char eng s s2 b h with ⟨b0, hget, hb⟩
    rw [hret] at hb
    simp only [Bool.false_eq_true, if_false] at hb
    subst hb
    exact hno b (List.getElem?_mem hget)
  · intro g b hret hinfo hrd hb
    rcases mem_scan_batches eng g b hrd hb with ⟨b0, _, hb2⟩
    rw [hret] at hb2
    simp only [if_true] at hb2
    rw [hinfo] at hb2
    subst hb2
    exact year_column_mem b0
  · intro g b hret hno hrd hb
    rcases mem_scan_batches eng g b hrd hb with ⟨b0, hmem, hb2⟩
    rw [hret] at hb2
    simp only [Bool.false_eq_true, if_false] at hb2
    subst hb2
    exact hno b hmem

/-- Witness for C6: with the retain flag enabled the concrete pulled batch
carries a `year` column full of `"2024"`; with it disabled the concrete
scanned batch carries none. -/
theorem partition_column_materialization_witness :
    (∃ c ∈ (Batch.mk [{ name := "x", values := ["1", "2"] },
        { name := "year", values := ["2024", "2024"] }]).cols,
      c.name = "year" ∧ ∀ v ∈ c.values, v = "2024") ∧
    (∀ c ∈ sampleBatch.cols, c.name ≠ "year") :=
  ⟨(partition_column_materialization sampleEngine).1
      { rd := sampleRetainReader, log := sampleLog }
      { rd := sampleRetainReader, log := { initCalls := 0, pullCalls := 1 } }
      (Batch.mk [{ name := "x", values := ["1", "2"] },
        { name := "year", values := ["2024", "2024"] }]) rfl rfl rfl,
    (partition_column_materialization sampleEngine).2.2.2
      sampleFragmentRun sampleBatch rfl
      (by
        intro b0 hmem
        simp [sampleEngine, sampleBatch, sampleBatch2] at hmem
        rcases hmem with h | h <;> subst h <;> decide)
      rfl (by decide)⟩

/-- `CreateDataReader` changes only the fragment's `data_reader_` slot: the
schema and the forwarded tuning fields are untouched. -/
theorem createDataReader_keeps_config (eng : FakeEngine) (s : FragmentRun) :
    (CreateDataReader eng s).1.frag.schema_ = s.frag.schema_ ∧
    (CreateDataReader eng s).1.frag.batch_size_ = s.frag.batch_size_ ∧
    (CreateDataReader eng s).1.frag.thread_num_ = s.frag.thread_num_ ∧
    (CreateDataReader eng s).1.frag.retain_partition_columns_ =
      s.frag.retain_partition_columns_ :=
  ⟨rfl, rfl, rfl, rfl⟩

/-- `ScanBatchesAsync` changes only the fragment's `data_reader_` slot and
the engine log: the schema and the forwarded tuning fields are untouched. -/
theorem scanBatchesAsync_keeps_config (eng : FakeEngine) (s : FragmentRun) :
    (ScanBatchesAsync eng s).2.frag.schema_ = s.frag.schema_ ∧
    (ScanBatchesAsync eng s).2.frag.batch_size_ = s.frag.batch_size_ ∧
    (ScanBatchesAsync eng s).2.frag.thread_num_ = s.frag.thread_num_ ∧
    (ScanBatchesAsync eng s).2.frag.retain_partition_columns_ =
      s.frag.retain_partition_columns_ := by
  have hc := createDataReader_keeps_config eng s
  rcases hr : CreateDataReader eng s with ⟨s2, r⟩
  rw [hr] at hc
  simp only [ScanBatchesAsync, hr]
  cases r with
  | error e => simpa using hc
  | ok u =>
    cases hd : s2.frag.data_reader_ with
    | none => simp only [hd]; simpa using hc
    | some rd => simp only [hd]; simpa using hc

/-- `StartReader` changes only the reader handle and the engine log: the
tuning fields are untouched. -/
theorem startReader_keeps (eng : FakeEngine) (s : ReaderRun) :
    (StartReader eng s).1.rd.batch_size_ = s.rd.batch_size_ ∧
    (StartReader eng s).1.rd.thread_num_ = s.rd.thread_num_ ∧
    (StartReader eng s).1.rd.retain_partition_columns_ =
      s.rd.retain_partition_columns_ := by
  cases hs : s.rd.reader_ with
  | none => cases hE : eng.initOutcome <;> simp [StartReader, hs, hE]
  | some x => cases x <;> simp [StartReader, hs]

/-- `ReadRecordBatchAsync` changes only the finished flag and the engine
log: the tuning fields are untouched. -/
theorem readBatch_keeps (eng : FakeEngine) (s : ReaderRun) :
    (ReadRecordBatchAsync eng s).1.rd.batch_size_ = s.rd.batch_size_ ∧
    (ReadRecordBatchAsync eng s).1.rd.thread_num_ = s.rd.thread_num_ ∧
    (ReadRecordBatchAsync eng s).1.rd.retain_partition_columns_ =
      s.rd.retain_partition_columns_ := by
  by_cases hf : s.rd.finished_
  · simp [ReadRecordBatchAsync, hf]
  · cases hget : eng.emissions[s.log.pullCalls]? with
    | none => simp [ReadRecordBatchAsync, hf, hget]
    | some p => cases p <;> simp [ReadRecordBatchAsync, hf, hget]



/-- C7: schema contract.  `LakeSoulFragment` construction fails for a null
or empty schema; a fragment successfully constructed with schema `S` has
`ReadPhysicalSchemaImpl` return `S` without error; and no public fragment
operation ever mutates the stored schema. -/
theorem schema_contract :
    (LakeSoulFragment.construct none = none ∧
      LakeSoulFragment.construct (some []) = none) ∧
    (∀ (S : Schema) (f : LakeSoulFragment),
      LakeSoulFragment.construct (some S) = some f →
      f.ReadPhysicalSchemaImpl = .ok S) ∧
    (∀ (eng : FakeEngine) (op : FragmentOp) (g : FragmentRun),
      (stepFragment eng op g).frag.schema_ = g.frag.schema_) := by
  refine ⟨⟨rfl, rfl⟩, ?_, ?_⟩
  · intro S f hf
    by_cases h : S.isEmpty
    · simp [LakeSoulFragment.construct, h] at hf
    · simp [LakeSoulFragment.construct, h] at hf
      subst hf
      rfl
  · intro eng op g
    cases op with
    | addFileUrl u =>
      simp only [stepFragment, LakeSoulFragment.AddFileUrl]
      split <;> rfl
    | addFileUrls us =>
      simp only [stepFragment, LakeSoulFragment.AddFileUrls]
      split <;> rfl
    | addPrimaryKeys ks =>
      simp only [stepFragment, LakeSoulFragment.AddPrimaryKeys]
      split <;> rfl
    | addPartitionKeyValue k v =>
      simp only [stepFragment, LakeSoulFragment.AddPartitionKeyValue]
      split <;> rfl
    | addPartitionKeyValues kvs =>
      simp only [stepFragment, LakeSoulFragment.AddPartitionKeyValues]
      split <;> rfl
    | setBatchSize n =>
      simp only [stepFragment, LakeSoulFragment.SetBatchSize]
      split <;> [rfl; skip]
      split <;> rfl
    | setThreadNum n =>
      simp only [stepFragment, LakeSoulFragment.SetThreadNum]
      split <;> [rfl; skip]
      split <;> rfl
    | setRetainPartitionColumns =>
      simp only [stepFragment, LakeSoulFragment.SetRetainPartitionColumns]
      split <;> rfl
    | setObjectStoreConfigs cfgs =>
      simp only [stepFragment, LakeSoulFragment.SetObjectStoreConfigs]
      split <;> rfl
    | createDataReader => exact (createDataReader_keeps_config eng g).1
    | scanBatchesAsync => exact (scanBatchesAsync_keeps_config eng g).1

/-- Witness for C7 at the concrete sample schema. -/
theorem schema_contract_witness :
    LakeSoulFragment.construct (some sampleSchema) = some sampleFragment ∧
      sampleFragment.ReadPhysicalSchemaImpl = .ok sampleSchema :=
  ⟨rfl, schema_contract.2.1 sampleSchema sampleFragment rfl⟩



/-- C8: setter validation.  `SetBatchSize` and `SetThreadNum` reject every
non-positive argument, leaving the stored value unchanged, and every public
operation preserves positivity of the stored batch size and thread count on
both the reader and the fragment — so with the positive defaults of C9,
`GetBatchSize` and `GetThreadNum` always return a positive value. -/
theorem setter_positive_validation (r : LakeSoulDataReader)
    (f : LakeSoulFragment) (n : Int) (eng : FakeEngine) (op : ReaderOp)
    (op2 : FragmentOp) (s : ReaderRun) (g : FragmentRun) :
    (n ≤ 0 →
      (r.SetBatchSize n).1.GetBatchSize = r.GetBatchSize ∧
      (r.SetThreadNum n).1.GetThreadNum = r.GetThreadNum ∧
      (f.SetBatchSize n).1.GetBatchSize = f.GetBatchSize ∧
      (f.SetThreadNum n).1.GetThreadNum = f.GetThreadNum) ∧
    (0 < s.rd.GetBatchSize → 0 < (stepReader eng op s).rd.GetBatchSize) ∧
    (0 < s.rd.GetThreadNum → 0 < (stepReader eng op s).rd.GetThreadNum) ∧
    (0 < g.frag.GetBatchSize →
      0 < (stepFragment eng op2 g).frag.GetBatchSize) ∧
    (0 < g.frag.GetThreadNum →
      0 < (stepFragment eng op2 g).frag.GetThreadNum) := by
  refine ⟨?_, ?_, ?_, ?_, ?_⟩
  · intro hn
    refine ⟨?_, ?_, ?_, ?_⟩ <;>
      · simp only [LakeSoulDataReader.SetBatchSize,
          LakeSoulDataReader.SetThreadNum, LakeSoulFragment.SetBatchSize,
          LakeSoulFragment.SetThreadNum, LakeSoulDataReader.GetBatchSize,
          LakeSoulDataReader.GetThreadNum, LakeSoulFragment.GetBatchSize,
          LakeSoulFragment.GetThreadNum]
        split <;> [rfl; skip]
        split <;> [omega; rfl]
  · intro h
    cases op with
    | setBatchSize m =>
      simp only [stepReader, LakeSoulDataReader.SetBatchSize,
        LakeSoulDataReader.GetBatchSize] at h ⊢
      split <;> [exact h; skip]
      split
      · rename_i hm
        simpa using hm
      · exact h
    | setThreadNum m =>
      simp only [stepReader, LakeSoulDataReader.SetThreadNum,
        LakeSoulDataReader.GetBatchSize] at h ⊢
      split <;> [exact h; skip]
      split <;> exact h
    | setRetainPartitionColumns =>
      simp only [stepReader, LakeSoulDataReader.SetRetainPartitionColumns,
        LakeSoulDataReader.GetBatchSize] at h ⊢
      split <;> exact h
    | setObjectStoreConfigs cfgs =>
      simp only [stepReader, LakeSoulDataReader.SetObjectStoreConfigs,
        LakeSoulDataReader.GetBatchSize] at h ⊢
      split <;> exact h
    | startReader =>
      have := (startReader_keeps eng s).1
      simp only [stepReader, LakeSoulDataReader.GetBatchSize] at h ⊢
      omega
    | readRecordBatchAsync =>
      have := (readBatch_keeps eng s).1
      simp only [stepReader, LakeSoulDataReader.GetBatchSize] at h ⊢
      omega
  · intro h
    cases op with
    | setBatchSize m =>
      simp only [stepReader, LakeSoulDataReader.SetBatchSize,
        LakeSoulDataReader.GetThreadNum] at h ⊢
      split <;> [exact h; skip]
      split <;> exact h
    | setThreadNum m =>
      simp only [stepReader, LakeSoulDataReader.SetThreadNum,
        LakeSoulDataReader.GetThreadNum] at h ⊢
      split <;> [exact h; skip]
      split
      · rename_i hm
        simpa using hm
      · exact h
    | setRetainPartitionColumns =>
      simp only [stepReader, LakeSoulDataReader.SetRetainPartitionColumns,
        LakeSoulDataReader.GetThreadNum] at h ⊢
      split <;> exact h
    | setObjectStoreConfigs cfgs =>
      simp only [stepReader, LakeSoulDataReader.SetObjectStoreConfigs,
        LakeSoulDataReader.GetThreadNum] at h ⊢
      split <;> exact h
    | startReader =>
      have := (startReader_keeps eng s).2.1
      simp only [stepReader, LakeSoulDataReader.GetThreadNum] at h ⊢
      omega
    | readRecordBatchAsync =>
      have := (readBatch_keeps eng s).2.1
      simp only [stepReader, LakeSoulDataReader.GetThreadNum] at h ⊢
      omega
  · intro h
    cases op2 with
    | setBatchSize m =>
      simp only [stepFragment, LakeSoulFragment.SetBatchSize,
        LakeSoulFragment.GetBatchSize] at h ⊢
      split <;> [exact h; skip]
      split
      · rename_i hm
        simpa using hm
      · exact h
    | createDataReader =>
      have := (createDataReader_keeps_config eng g).2.1
      simp only [LakeSoulFragment.GetBatchSize, stepFragment] at h ⊢
      omega
    | scanBatchesAsync =>
      have := (scanBatchesAsync_keeps_config eng g).2.1
      simp only [LakeSoulFragment.GetBatchSize, stepFragment] at h ⊢
      omega
    | addFileUrl u =>
      simp only [stepFragment, LakeSoulFragment.AddFileUrl,
        LakeSoulFragment.GetBatchSize] at h ⊢
      split <;> exact h
    | addFileUrls us =>
      simp only [stepFragment, LakeSoulFragment.AddFileUrls,
        LakeSoulFragment.GetBatchSize] at h ⊢
      split <;> exact h
    | addPrimaryKeys ks =>
      simp only [stepFragment, LakeSoulFragment.AddPrimaryKeys,
        LakeSoulFragment.GetBatchSize] at h ⊢
      split <;> exact h
    | addPartitionKeyValue k v =>
      simp only [stepFragment, LakeSoulFragment.AddPartitionKeyValue,
        LakeSoulFragment.GetBatchSize] at h ⊢
      split <;> exact h
    | addPartitionKeyValues kvs =>
      simp only [stepFragment, LakeSoulFragment.AddPartitionKeyValues,
        LakeSoulFragment.GetBatchSize] at h ⊢
      split <;> exact h
    | setThreadNum m =>
      simp only [stepFragment, LakeSoulFragment.SetThreadNum,
        LakeSoulFragment.GetBatchSize] at h ⊢
      split <;> [exact h; skip]
      split <;> exact h
    | setRetainPartitionColumns =>
      simp only [stepFragment, LakeSoulFragment.SetRetainPartitionColumns,
        LakeSoulFragment.GetBatchSize] at h ⊢
      split <;> exact h
    | setObjectStoreConfigs cfgs =>
      simp only [stepFragment, LakeSoulFragment.SetObjectStoreConfigs,
        LakeSoulFragment.GetBatchSize] at h ⊢
      split <;> exact h
  · intro h
    cases op2 with
    | setThreadNum m =>
      simp only [stepFragment, LakeSoulFragment.SetThreadNum,
        LakeSoulFragment.GetThreadNum] at h ⊢
      split <;> [exact h; skip]
      split
      · rename_i hm
        simpa using hm
      · exact h
    | createDataReader =>
      have := (createDataReader_keeps_config eng g).2.2.1
      simp only [LakeSoulFragment.GetThreadNum, stepFragment] at h ⊢
      omega
    | scanBatchesAsync =>
      have := (scanBatchesAsync_keeps_config eng g).2.2.1
      simp only [LakeSoulFragment.GetThreadNum, stepFragment] at h ⊢
      omega
    | addFileUrl u =>
      simp only [stepFragment, LakeSoulFragment.AddFileUrl,
        LakeSoulFragment.GetThreadNum] at h ⊢
      split <;> exact h
    | addFileUrls us =>
      simp only [stepFragment, LakeSoulFragment.AddFileUrls,
        LakeSoulFragment.GetThreadNum] at h ⊢
      split <;> exact h
    | addPrimaryKeys ks =>
      simp only [stepFragment, LakeSoulFragment.AddPrimaryKeys,
        LakeSoulFragment.GetThreadNum] at h ⊢
      split <;> exact h
    | addPartitionKeyValue k v =>
      simp only [stepFragment, LakeSoulFragment.AddPartitionKeyValue,
        LakeSoulFragment.GetThreadNum] at h ⊢
      split <;> exact h
    | addPartitionKeyValues kvs =>
      simp only [stepFragment, LakeSoulFragment.AddPartitionKeyValues,
        LakeSoulFragment.GetThreadNum] at h ⊢
      split <;> exact h
    | setBatchSize m =>
      simp only [stepFragment, LakeSoulFragment.SetBatchSize,
        LakeSoulFragment.GetThreadNum] at h ⊢
      split <;> [exact h; skip]
      split <;> exact h
    | setRetainPartitionColumns =>
      simp only [stepFragment, LakeSoulFragment.SetRetainPartitionColumns,
        LakeSoulFragment.GetThreadNum] at h ⊢
      split <;> exact h
    | setObjectStoreConfigs cfgs =>
      simp only [stepFragment, LakeSoulFragment.SetObjectStoreConfigs,
        LakeSoulFragment.GetThreadNum] at h ⊢
      split <;> exact h



/-- Witness for C8: rejecting -5 leaves the defaults, which stay positive
across operations. -/
theorem setter_positive_validation_witness :
    ((sampleReader.SetBatchSize (-5)).1.GetBatchSize =
        sampleReader.GetBatchSize ∧
      (sampleReader.SetThreadNum (-5)).1.GetThreadNum =
        sampleReader.GetThreadNum ∧
      (sampleFragment.SetBatchSize (-5)).1.GetBatchSize =
        sampleFragment.GetBatchSize ∧
      (sampleFragment.SetThreadNum (-5)).1.GetThreadNum =
        sampleFragment.GetThreadNum) ∧
    0 < (stepReader sampleEngine .startReader sampleRun).rd.GetBatchSize ∧
    0 < (stepFragment sampleEngine .createDataReader
        sampleFragmentRun).frag.GetThreadNum :=
  ⟨(setter_positive_validation sampleReader sampleFragment (-5) sampleEngine
      .startReader .createDataReader sampleRun sampleFragmentRun).1
      (by decide),
    (setter_positive_validation sampleReader sampleFragment (-5) sampleEngine
      .startReader .createDataReader sampleRun sampleFragmentRun).2.1
      (by decide),
    (setter_positive_validation sampleReader sampleFragment (-5) sampleEngine
      .startReader .createDataReader sampleRun sampleFragmentRun).2.2.2.2
      (by decide)⟩

/-- C10: the retain-partition-columns flag is enable-only.  It starts false
on every freshly constructed reader and fragment, the argument-less
`SetRetainPartitionColumns` can only set it to true (or fail frozen), and no
public operation on either class ever returns it from true to false. -/
theorem retain_flag_enable_only (r : LakeSoulDataReader)
    (f : LakeSoulFragment) (eng : FakeEngine) (op : ReaderOp)
    (op2 : FragmentOp) (s : ReaderRun) (g : FragmentRun) (schema : Schema)
    (file_urls primary_keys : List String)
    (partition_info : List (String × String)) (os : Option Schema)
    (f0 : LakeSoulFragment) :
    ((LakeSoulDataReader.construct schema file_urls primary_keys
        partition_info).retain_partition_columns_ = false) ∧
    (LakeSoulFragment.construct os = some f0 →
      f0.retain_partition_columns_ = false) ∧
    (r.reader_.isSome = false →
      r.SetRetainPartitionColumns =
        ({ r with retain_partition_columns_ := true }, .ok ())) ∧
    (f.data_reader_.isSome = false →
      f.SetRetainPartitionColumns =
        ({ f with retain_partition_columns_ := true }, .ok ())) ∧
    (s.rd.retain_partition_columns_ = true →
      (stepReader eng op s).rd.retain_partition_columns_ = true) ∧
    (g.frag.retain_partition_columns_ = true →
      (stepFragment eng op2 g).frag.retain_partition_columns_ = true) := by
  refine ⟨rfl, ?_, ?_, ?_, ?_, ?_⟩
  · intro hf0
    cases os with
    | none => simp [LakeSoulFragment.construct] at hf0
    | some S =>
      by_cases h : S.isEmpty
      · simp [LakeSoulFragment.construct, h] at hf0
      · simp [LakeSoulFragment.construct, h] at hf0
        subst hf0
        rfl
  · intro h
    simp [LakeSoulDataReader.SetRetainPartitionColumns, h]
  · intro h
    simp [LakeSoulFragment.SetRetainPartitionColumns, h]
  · intro h
    cases op with
    | setBatchSize m =>
      simp only [stepReader, LakeSoulDataReader.SetBatchSize] at h ⊢
      split <;> [exact h; skip]
      split <;> exact h
    | setThreadNum m =>
      simp only [stepReader, LakeSoulDataReader.SetThreadNum] at h ⊢
      split <;> [exact h; skip]
      split <;> exact h
    | setRetainPartitionColumns =>
      simp only [stepReader,
        LakeSoulDataReader.SetRetainPartitionColumns] at h ⊢
      split <;> [exact h; rfl]
    | setObjectStoreConfigs cfgs =>
      simp only [stepReader,
        LakeSoulDataReader.SetObjectStoreConfigs] at h ⊢
      split <;> exact h
    | startReader =>
      show (StartReader eng s).1.rd.retain_partition_columns_ = true
      rw [(startReader_keeps eng s).2.2]
      exact h
    | readRecordBatchAsync =>
      show (ReadRecordBatchAsync eng s).1.rd.retain_partition_columns_ = true
      rw [(readBatch_keeps eng s).2.2]
      exact h
  · intro h
    cases op2 with
    | addFileUrl u =>
      simp only [stepFragment, LakeSoulFragment.AddFileUrl] at h ⊢
      split <;> exact h
    | addFileUrls us =>
      simp only [stepFragment, LakeSoulFragment.AddFileUrls] at h ⊢
      split <;> exact h
    | addPrimaryKeys ks =>
      simp only [stepFragment, LakeSoulFragment.AddPrimaryKeys] at h ⊢
      split <;> exact h
    | addPartitionKeyValue k v =>
      simp only [stepFragment, LakeSoulFragment.AddPartitionKeyValue] at h ⊢
      split <;> exact h
    | addPartitionKeyValues kvs =>
      simp only [stepFragment, LakeSoulFragment.AddPartitionKeyValues] at h ⊢
      split <;> exact h
    | setBatchSize m =>
      simp only [stepFragment, LakeSoulFragment.SetBatchSize] at h ⊢
      split <;> [exact h; skip]
      split <;> exact h
    | setThreadNum m =>
      simp only [stepFragment, LakeSoulFragment.SetThreadNum] at h ⊢
      split <;> [exact h; skip]
      split <;> exact h
    | setRetainPartitionColumns =>
      simp only [stepFragment,
        LakeSoulFragment.SetRetainPartitionColumns] at h ⊢
      split <;> [exact h; rfl]
    | setObjectStoreConfigs cfgs =>
      simp only [stepFragment,
        LakeSoulFragment.SetObjectStoreConfigs] at h ⊢
      split <;> exact h
    | createDataReader =>
      show (CreateDataReader eng g).1.frag.retain_partition_columns_ = true
      rw [(createDataReader_keeps_config eng g).2.2.2]
      exact h
    | scanBatchesAsync =>
      show (ScanBatchesAsync eng g).2.frag.retain_partition_columns_ = true
      rw [(scanBatchesAsync_keeps_config eng g).2.2.2]
      exact h

/-- Witness for C10: enabling the flag on the sample reader, and its
persistence across a start operation. -/
theorem retain_flag_enable_only_witness :
    sampleFragment.retain_partition_columns_ = false ∧
      sampleReader.SetRetainPartitionColumns =
        ({ sampleReader with retain_partition_columns_ := true }, .ok ()) ∧
      (stepReader sampleEngine .startReader
          { rd := sampleRetainReader,
            log := sampleLog }).rd.retain_partition_columns_ = true :=
  ⟨(retain_flag_enable_only sampleReader sampleFragment sampleEngine
      .startReader .createDataReader
      { rd := sampleRetainReader, log := sampleLog } sampleFragmentRun
      [] [] [] [] (some sampleSchema) sampleFragment).2.1 rfl,
    (retain_flag_enable_only sampleReader sampleFragment sampleEngine
      .startReader .createDataReader
      { rd := sampleRetainReader, log := sampleLog } sampleFragmentRun
      [] [] [] [] (some sampleSchema) sampleFragment).2.2.1 rfl,
    (retain_flag_enable_only sampleReader sampleFragment sampleEngine
      .startReader .createDataReader
      { rd := sampleRetainReader, log := sampleLog } sampleFragmentRun
      [] [] [] [] (some sampleSchema) sampleFragment).2.2.2.2.1 rfl⟩

end LakeSoul
